import Mathlib

/-!
Verification of the two-factor login protocol of the Nexora backend.

The protocol lives in the Express router mounted at /api/auth
(src/unnamed/part_006 is the complete variant: password login that issues a
one-time code, OTP verification with an attempt counter and lockout, and a
resend endpoint; src/routes/authLogin2FARoutes.js and src/unnamed/part_007
are redundant re-implementations of the same flow with fewer checks).
Accounts are mongoose User documents.

Modelling decisions:
- Timestamps are milliseconds since the epoch, as `Nat` (JS Date comparison
  via < coerces to the millisecond value).
- Nullable mongoose fields (otpCode : String, otpExpiresAt : Date) are
  `Option` values; `none` is the cleared/null state.  The JS truthiness test
  on otpCode treats both null and the empty string as falsy, which the
  embedding reproduces.
- bcrypt.compare is an injected collaborator, a `String → String → Bool`
  argument.
- Math.random is an injected natural number `rand < 900000`:
  Math.floor (100000 + Math.random () * 900000) = 100000 + rand.
- transporter.sendMail is an injected Boolean outcome `mailOk`; in
  part_006 the call is awaited, so a rejection lands in the catch block of
  the handler (HTTP 500), in authLogin2FARoutes.js it runs with a callback
  and an error is only logged.
- Each handler is a function from the looked-up account (an
  `Option Account`, `none` when findOne matched nothing) and the request
  data to the HTTP result paired with the persisted account state.
-/

/-- A mongoose User document (src/models/User.js, src/unnamed/part_005):
login identifier, bcrypt password hash, role, and the three OTP fields. -/
structure Account where
  id : String
  username : String
  password : String
  role : String
  otpCode : Option String
  otpExpiresAt : Option Nat
  otpAttempts : Nat
deriving DecidableEq, Repr

/-- OTP_EXPIRY_MINUTES = 5 (src/unnamed/part_006 line 12). -/
def OTP_EXPIRY_MINUTES : Nat := 5

/-- MAX_OTP_ATTEMPTS = 5 (src/unnamed/part_006 line 13). -/
def MAX_OTP_ATTEMPTS : Nat := 5

/-- generateOtp (src/unnamed/part_006 line 21):
Math.floor (100000 + Math.random () * 900000).toString ().
Math.random () ranges over [0, 1), so the floor is 100000 + rand for a
natural number rand < 900000; toString is the decimal representation. -/
def generateOtp (rand : Nat) : String :=
  Nat.repr (100000 + rand)

/-- Payload of the JWT minted on successful verification
(src/unnamed/part_006 lines 148-149): user id, username, role, signed with
expiresIn 5h. -/
structure Token where
  userId : String
  username : String
  role : String
  expiresInHours : Nat
deriving DecidableEq, Repr

/-- Outcome of POST /api/auth/verify-otp (src/unnamed/part_006 lines
104-157): each constructor is one return path of the handler. -/
inductive VerifyResult where
  | notFound
  | lockedOut
  | noActiveCode
  | expired
  | mismatch
  | success (token : Token)
deriving DecidableEq, Repr

/-- JS truthiness of the nullable otpCode string: null and the empty
string are falsy. -/
def jsFalsyCode : Option String → Bool
  | none => true
  | some s => s == ""

/-- The JWT payload built on the success path of verify-otp. -/
def mkToken (user : Account) : Token :=
  { userId := user.id, username := user.username, role := user.role,
    expiresInHours := 5 }

/-- Body of POST /api/auth/verify-otp for a found user
(src/unnamed/part_006 lines 120-151), returning the HTTP outcome and the
persisted account state:
1. otpAttempts >= MAX_OTP_ATTEMPTS: clear otpCode/otpExpiresAt, save, 429;
2. no otpCode or no otpExpiresAt (JS falsy): 401 no active OTP, no write;
3. otpExpiresAt < now: clear otpCode/otpExpiresAt, save, 401 expired;
4. otpCode differs from the submitted code: otpAttempts += 1, save, 401;
5. match: clear otpCode/otpExpiresAt, otpAttempts = 0, save, sign JWT, 200. -/
def verifyOtpUser (user : Account) (otp_code : String) (now : Nat) :
    VerifyResult × Account :=
  if MAX_OTP_ATTEMPTS ≤ user.otpAttempts then
    (VerifyResult.lockedOut, { user with otpCode := none, otpExpiresAt := none })
  else
    match user.otpCode, user.otpExpiresAt with
    | some storedCode, some expiresAt =>
      if storedCode = "" then
        (VerifyResult.noActiveCode, user)
      else if expiresAt < now then
        (VerifyResult.expired, { user with otpCode := none, otpExpiresAt := none })
      else if storedCode ≠ otp_code then
        (VerifyResult.mismatch, { user with otpAttempts := user.otpAttempts + 1 })
      else
        (VerifyResult.success (mkToken user),
         { user with otpCode := none, otpExpiresAt := none, otpAttempts := 0 })
    | none, _ => (VerifyResult.noActiveCode, user)
    | some _, none => (VerifyResult.noActiveCode, user)

/-- POST /api/auth/verify-otp (src/unnamed/part_006 lines 104-157) over the
result of User.findOne: a missing user is the 400 user-not-found path. -/
def verifyOtp (found : Option Account) (otp_code : String) (now : Nat) :
    VerifyResult × Option Account :=
  match found with
  | none => (VerifyResult.notFound, none)
  | some user =>
    let r := verifyOtpUser user otp_code now
    (r.1, some r.2)

example :
    (verifyOtpUser
      { id := "1", username := "a@b.com", password := "h", role := "admin",
        otpCode := some "123456", otpExpiresAt := some 1000, otpAttempts := 0 }
      "123456" 500).1 =
    VerifyResult.success
      { userId := "1", username := "a@b.com", role := "admin", expiresInHours := 5 } := by
  decide

example :
    (verifyOtpUser
      { id := "1", username := "a@b.com", password := "h", role := "admin",
        otpCode := some "123456", otpExpiresAt := some 1000, otpAttempts := 0 }
      "000000" 500).2.otpAttempts = 1 := by
  decide

/-- Outcome of POST /api/auth/login (src/unnamed/part_006 lines 50-101):
generic invalid-credentials 400, success 200, or the catch-block 500. -/
inductive LoginResult where
  | invalidCredentials
  | otpSent (username : String)
  | serverError
deriving DecidableEq, Repr

/-- The HTTP status and message literal the part_006 /login handler sends
for each outcome. -/
def loginHttp : LoginResult → Nat × String
  | LoginResult.invalidCredentials => (400, "Invalid credentials")
  | LoginResult.otpSent _ => (200, "OTP sent to your email.")
  | LoginResult.serverError => (500, "Server error during login process.")

/-- POST /api/auth/login (src/unnamed/part_006 lines 50-101): look up the
user; a missing user or a failed bcrypt.compare both return the 400
invalid-credentials message with no write; otherwise generate the code,
set otpCode/otpExpiresAt = now + OTP_EXPIRY_MINUTES minutes/otpAttempts = 0,
save, then await transporter.sendMail — a mail rejection is caught by the
catch block of the handler and answered with 500, after the save already
happened. -/
def login (compareHash : String → String → Bool) (found : Option Account)
    (password : String) (rand : Nat) (now : Nat) (mailOk : Bool) :
    LoginResult × Option Account :=
  match found with
  | none => (LoginResult.invalidCredentials, none)
  | some user =>
    if compareHash password user.password then
      let saved :=
        { user with
          otpCode := some (generateOtp rand),
          otpExpiresAt := some (now + OTP_EXPIRY_MINUTES * 60 * 1000),
          otpAttempts := 0 }
      if mailOk then (LoginResult.otpSent saved.username, some saved)
      else (LoginResult.serverError, some saved)
    else (LoginResult.invalidCredentials, some user)

/-- POST /login of the redundant variant src/routes/authLogin2FARoutes.js
(lines 34-96): same password gate, but User.updateOne sets only otpCode and
otpExpiresAt (no otpAttempts field in this variant), and sendMail runs with
a callback, so a mail error is only logged and the 200 response is sent
regardless of the mail outcome. -/
def login2FACallbackMail (compareHash : String → String → Bool)
    (found : Option Account) (password : String) (rand : Nat) (now : Nat)
    (mailOk : Bool) : LoginResult × Option Account :=
  match found with
  | none => (LoginResult.invalidCredentials, none)
  | some user =>
    if compareHash password user.password then
      let saved :=
        { user with
          otpCode := some (generateOtp rand),
          otpExpiresAt := some (now + OTP_EXPIRY_MINUTES * 60 * 1000) }
      (LoginResult.otpSent user.username, some saved)
    else (LoginResult.invalidCredentials, some user)

/-- Outcome of POST /api/auth/resend-otp (src/unnamed/part_006 lines
160-194). -/
inductive ResendResult where
  | notFound
  | otpSent
  | serverError
deriving DecidableEq, Repr

/-- POST /api/auth/resend-otp (src/unnamed/part_006 lines 160-194): for a
found user, unconditionally store a fresh code, a fresh expiry and
otpAttempts = 0, save, then await sendMail (a rejection gives the catch
500 of the catch block, after the save). -/
def resendOtp (found : Option Account) (rand : Nat) (now : Nat)
    (mailOk : Bool) : ResendResult × Option Account :=
  match found with
  | none => (ResendResult.notFound, none)
  | some user =>
    let saved :=
      { user with
        otpCode := some (generateOtp rand),
        otpExpiresAt := some (now + OTP_EXPIRY_MINUTES * 60 * 1000),
        otpAttempts := 0 }
    if mailOk then (ResendResult.otpSent, some saved)
    else (ResendResult.serverError, some saved)

/-- The persisted account after k consecutive verify-otp calls that all
submit the same (wrong) code. -/
def mismatchRun (user : Account) (wrong : String) (now : Nat) : Nat → Account
  | 0 => user
  | k + 1 => (verifyOtpUser (mismatchRun user wrong now k) wrong now).2

/-- The accumulator only grows: toDigitsCore never returns fewer characters
than it was handed. -/
theorem toDigitsCore_acc_le (b : Nat) :
    ∀ (fuel n : Nat) (ds : List Char),
      ds.length ≤ (Nat.toDigitsCore b fuel n ds).length := by
  intro fuel
  induction fuel with
  | zero => intro n ds; simp [Nat.toDigitsCore]
  | succ f ih =>
    intro n ds
    simp only [Nat.toDigitsCore]
    split
    · simp
    · exact le_trans (by simp) (ih (n / b) (Nat.digitChar (n % b) :: ds))

/-- Lower bound on the decimal digit string: a number of at least e + 1
decimal digits yields more than e characters beyond the accumulator,
provided the fuel is at least the number itself. -/
theorem toDigitsCore_len_lower :
    ∀ (e fuel n : Nat) (ds : List Char), 10 ^ e ≤ n → n ≤ fuel →
      e + ds.length < (Nat.toDigitsCore 10 fuel n ds).length := by
  intro e
  induction e with
  | zero =>
    intro fuel n ds hpow hfuel
    match fuel with
    | 0 => omega
    | f + 1 =>
      simp only [Nat.toDigitsCore]
      split
      · simp
      · calc 0 + ds.length < (Nat.digitChar (n % 10) :: ds).length := by simp
          _ ≤ _ := toDigitsCore_acc_le 10 f (n / 10) _
  | succ e ih =>
    intro fuel n ds hpow hfuel
    have hn : 0 < n := lt_of_lt_of_le (Nat.pos_pow_of_pos (e + 1) (by omega)) hpow
    match fuel with
    | 0 => omega
    | f + 1 =>
      have hdiv : 10 ^ e ≤ n / 10 := by
        rw [Nat.le_div_iff_mul_le (by omega)]
        calc 10 ^ e * 10 = 10 ^ (e + 1) := by ring
          _ ≤ n := hpow
      have hdivne : n / 10 ≠ 0 := by
        have : 0 < 10 ^ e := Nat.pos_pow_of_pos e (by omega)
        omega
      have hfuel2 : n / 10 ≤ f := by
        have : n / 10 < n := Nat.div_lt_self hn (by omega)
        omega
      simp only [Nat.toDigitsCore, hdivne, if_false]
      have := ih f (n / 10) (Nat.digitChar (n % 10) :: ds) hdiv hfuel2
      simp only [List.length_cons] at this
      omega

/-- Every natural number between 100000 and 999999 prints as exactly six
characters. -/
theorem repr_length_six (n : Nat) (h1 : 100000 ≤ n) (h2 : n < 1000000) :
    (Nat.repr n).length = 6 := by
  have upper : (Nat.repr n).length ≤ 6 :=
    Nat.repr_length n 6 (by omega) (by omega)
  have lower : 5 + ([] : List Char).length <
      (Nat.toDigitsCore 10 (n + 1) n []).length :=
    toDigitsCore_len_lower 5 (n + 1) n [] (by omega) (Nat.le_succ n)
  have hrepr : (Nat.repr n).length = (Nat.toDigitsCore 10 (n + 1) n []).length := by
    simp [Nat.repr, Nat.toDigits, String.length, List.asString]
  omega

/-- Each verify-otp call that reaches the mismatch branch leaves the
account identical except for the incremented counter, so k such calls in a
row add k to otpAttempts while the counter stays within the maximum. -/
theorem mismatchRun_adds (user : Account) (s wrong : String) (e now : Nat)
    (hcode : user.otpCode = some s) (hs : s ≠ "")
    (hexp : user.otpExpiresAt = some e) (hlive : ¬ e < now) (hw : wrong ≠ s) :
    ∀ k, user.otpAttempts + k ≤ MAX_OTP_ATTEMPTS →
      mismatchRun user wrong now k = { user with otpAttempts := user.otpAttempts + k } := by
  intro k
  induction k with
  | zero => intro _; simp [mismatchRun]
  | succ k ih =>
    intro hk
    have hk2 : user.otpAttempts + k ≤ MAX_OTP_ATTEMPTS := by omega
    have hlt : ¬ MAX_OTP_ATTEMPTS ≤ user.otpAttempts + k := by
      unfold MAX_OTP_ATTEMPTS at hk ⊢; omega
    rw [mismatchRun, ih hk2]
    simp only [verifyOtpUser, hcode, hexp, hlt, if_false, if_neg hs,
      if_neg hlive, if_pos (Ne.symm hw)]
    congr 1

/-- Claim C1: for every found account and every validated VerifyOtp call
(the submitted code is exactly 6 characters), the handler returns a signed
token if and only if the submitted code equals the stored otpCode, the
stored otpExpiresAt has not passed, and otpAttempts is below
MAX_OTP_ATTEMPTS at entry; every other path (LockedOut, NoActiveCode,
Expired, Mismatch) returns no token. -/
theorem verifyOtp_issues_token_iff (user : Account) (code : String) (now : Nat)
    (hlen : code.length = 6) :
    (∃ t, (verifyOtpUser user code now).1 = VerifyResult.success t) ↔
      (user.otpAttempts < MAX_OTP_ATTEMPTS ∧ user.otpCode = some code ∧
        ∃ e, user.otpExpiresAt = some e ∧ ¬ e < now) := by
  have hne : code ≠ "" := by
    intro h
    rw [h] at hlen
    simp at hlen
  unfold verifyOtpUser
  by_cases hatt : MAX_OTP_ATTEMPTS ≤ user.otpAttempts
  · simp only [if_pos hatt]
    constructor
    · rintro ⟨t, ht⟩; exact absurd ht (by simp)
    · rintro ⟨h1, _⟩; omega
  · simp only [if_neg hatt]
    rcases hoc : user.otpCode with _ | s
    · simp [hoc]
    · rcases hoe : user.otpExpiresAt with _ | e
      · simp [hoe]
      · simp only []
        by_cases hse : s = ""
        · subst hse
          simp only [if_pos rfl]
          constructor
          · rintro ⟨t, ht⟩; exact absurd ht (by simp)
          · rintro ⟨_, hc, _⟩
            exact absurd (Option.some.inj hc) (Ne.symm hne)
        · simp only [if_neg hse]
          by_cases hexp : e < now
          · simp only [if_pos hexp]
            constructor
            · rintro ⟨t, ht⟩; exact absurd ht (by simp)
            · rintro ⟨_, _, e2, he2, hlive⟩
              exact absurd (Option.some.inj he2 ▸ hexp) hlive
          · simp only [if_neg hexp]
            by_cases hmm : s ≠ code
            · simp only [if_pos hmm]
              constructor
              · rintro ⟨t, ht⟩; exact absurd ht (by simp)
              · rintro ⟨_, hc, _⟩
                exact absurd (Option.some.inj hc) hmm
            · simp only [if_neg hmm]
              push_neg at hmm
              subst hmm
              exact ⟨fun _ => ⟨by omega, rfl, e, rfl, hexp⟩,
                fun _ => ⟨mkToken user, rfl⟩⟩

/-- A concrete account with an active, unexpired code, used to witness the
universally quantified theorems. -/
def sampleAccount : Account :=
  { id := "1", username := "a@b.com", password := "hash", role := "admin",
    otpCode := some "123456", otpExpiresAt := some 1000, otpAttempts := 0 }

/-- Witness for C1 at a concrete account and call. -/
theorem verifyOtp_issues_token_iff_witness :
    ("123456" : String).length = 6 ∧
      ((∃ t, (verifyOtpUser
          { id := "1", username := "a@b.com", password := "h", role := "admin",
            otpCode := some "123456", otpExpiresAt := some 1000, otpAttempts := 2 }
          "123456" 500).1 = VerifyResult.success t) ↔
        (2 < MAX_OTP_ATTEMPTS ∧
          (some "123456" : Option String) = some "123456" ∧
          ∃ e, (some 1000 : Option Nat) = some e ∧ ¬ e < 500)) :=
  ⟨by decide,
   verifyOtp_issues_token_iff
     { id := "1", username := "a@b.com", password := "h", role := "admin",
       otpCode := some "123456", otpExpiresAt := some 1000, otpAttempts := 2 }
     "123456" 500 (by decide)⟩

/-- Claim C2: with otpAttempts at or above MAX_OTP_ATTEMPTS at entry,
verify-otp answers LockedOut and clears otpCode and otpExpiresAt, even when
the submitted code equals the stored one; and from a freshly issued state,
after exactly MAX_OTP_ATTEMPTS consecutive Mismatch results the next call
with the correct code answers LockedOut with the OTP fields cleared. -/
theorem verifyOtp_lockout_clears_and_blocks :
    (∀ (user : Account) (code : String) (now : Nat),
      MAX_OTP_ATTEMPTS ≤ user.otpAttempts →
        (verifyOtpUser user code now).1 = VerifyResult.lockedOut ∧
        (verifyOtpUser user code now).2.otpCode = none ∧
        (verifyOtpUser user code now).2.otpExpiresAt = none) ∧
    (∀ (user : Account) (s wrong : String) (e now : Nat),
      user.otpAttempts = 0 → user.otpCode = some s → s ≠ "" →
      user.otpExpiresAt = some e → ¬ e < now → wrong ≠ s →
        (∀ k, k < MAX_OTP_ATTEMPTS →
          (verifyOtpUser (mismatchRun user wrong now k) wrong now).1 =
            VerifyResult.mismatch) ∧
        (verifyOtpUser (mismatchRun user wrong now MAX_OTP_ATTEMPTS) s now).1 =
          VerifyResult.lockedOut ∧
        (verifyOtpUser (mismatchRun user wrong now MAX_OTP_ATTEMPTS) s now).2.otpCode =
          none ∧
        (verifyOtpUser (mismatchRun user wrong now MAX_OTP_ATTEMPTS) s now).2.otpExpiresAt =
          none) := by
  constructor
  · intro user code now hatt
    simp only [verifyOtpUser, if_pos hatt]
    simp
  · intro user s wrong e now h0 hcode hs hexp hlive hw
    constructor
    · intro k hk
      rw [mismatchRun_adds user s wrong e now hcode hs hexp hlive hw k (by omega)]
      have hlt : ¬ MAX_OTP_ATTEMPTS ≤ user.otpAttempts + k := by omega
      simp only [verifyOtpUser, hcode, hexp, if_neg hlt, if_neg hs,
        if_neg hlive, if_pos (Ne.symm hw)]
    · rw [mismatchRun_adds user s wrong e now hcode hs hexp hlive hw
        MAX_OTP_ATTEMPTS (by omega)]
      have hge : MAX_OTP_ATTEMPTS ≤ user.otpAttempts + MAX_OTP_ATTEMPTS := by omega
      simp only [verifyOtpUser, if_pos hge]
      simp

/-- Witness for C2: the lockout branch at a locked concrete account, and
the five-mismatches-then-lockout scenario from a fresh concrete account. -/
theorem verifyOtp_lockout_clears_and_blocks_witness :
    (MAX_OTP_ATTEMPTS ≤ ({ sampleAccount with otpAttempts := 5 } : Account).otpAttempts ∧
      ((verifyOtpUser { sampleAccount with otpAttempts := 5 } "123456" 500).1 =
          VerifyResult.lockedOut ∧
        (verifyOtpUser { sampleAccount with otpAttempts := 5 } "123456" 500).2.otpCode =
          none ∧
        (verifyOtpUser { sampleAccount with otpAttempts := 5 } "123456" 500).2.otpExpiresAt =
          none)) ∧
    ((verifyOtpUser (mismatchRun sampleAccount "000000" 500 MAX_OTP_ATTEMPTS)
        "123456" 500).1 = VerifyResult.lockedOut ∧
      (verifyOtpUser (mismatchRun sampleAccount "000000" 500 MAX_OTP_ATTEMPTS)
        "123456" 500).2.otpCode = none ∧
      (verifyOtpUser (mismatchRun sampleAccount "000000" 500 MAX_OTP_ATTEMPTS)
        "123456" 500).2.otpExpiresAt = none) :=
  ⟨⟨by decide,
    verifyOtp_lockout_clears_and_blocks.1 { sampleAccount with otpAttempts := 5 }
      "123456" 500 (by decide)⟩,
   (verifyOtp_lockout_clears_and_blocks.2 sampleAccount "123456" "000000" 1000 500
      (by decide) (by decide) (by decide) (by decide) (by decide) (by decide)).2⟩

/-- Claim C3: with an active, unexpired, non-locked-out code, a verify-otp
call with a differing code answers Mismatch, and the persisted
otpAttempts of the account is exactly one higher. -/
theorem verifyOtp_mismatch_increments_attempts (user : Account)
    (s code : String) (e now : Nat)
    (hatt : user.otpAttempts < MAX_OTP_ATTEMPTS) (hcode : user.otpCode = some s)
    (hs : s ≠ "") (hexp : user.otpExpiresAt = some e) (hlive : ¬ e < now)
    (hmm : code ≠ s) :
    (verifyOtpUser user code now).1 = VerifyResult.mismatch ∧
    (verifyOtpUser user code now).2.otpAttempts = user.otpAttempts + 1 := by
  have h1 : ¬ MAX_OTP_ATTEMPTS ≤ user.otpAttempts := by omega
  simp only [verifyOtpUser, hcode, hexp, if_neg h1, if_neg hs, if_neg hlive,
    if_pos (Ne.symm hmm)]
  simp

/-- Witness for C3 at a concrete account and wrong code. -/
theorem verifyOtp_mismatch_increments_attempts_witness :
    (verifyOtpUser sampleAccount "000000" 500).1 = VerifyResult.mismatch ∧
    (verifyOtpUser sampleAccount "000000" 500).2.otpAttempts =
      sampleAccount.otpAttempts + 1 :=
  verifyOtp_mismatch_increments_attempts sampleAccount "123456" "000000" 1000 500
    (by decide) rfl (by decide) rfl (by decide) (by decide)

/-- Claim C5: a successful verify-otp returns a token and clears otpCode,
otpExpiresAt and resets otpAttempts to 0, and a second verify-otp call on
the persisted state with the same code answers NoActiveCode at any later
time (in particular not success and not Mismatch). -/
theorem verifyOtp_success_clears_then_noActiveCode (user : Account)
    (code : String) (e now : Nat)
    (hatt : user.otpAttempts < MAX_OTP_ATTEMPTS) (hcode : user.otpCode = some code)
    (hc : code ≠ "") (hexp : user.otpExpiresAt = some e) (hlive : ¬ e < now) :
    (verifyOtpUser user code now).1 = VerifyResult.success (mkToken user) ∧
    (verifyOtpUser user code now).2.otpCode = none ∧
    (verifyOtpUser user code now).2.otpExpiresAt = none ∧
    (verifyOtpUser user code now).2.otpAttempts = 0 ∧
    ∀ now2, (verifyOtpUser (verifyOtpUser user code now).2 code now2).1 =
      VerifyResult.noActiveCode := by
  have h1 : ¬ MAX_OTP_ATTEMPTS ≤ user.otpAttempts := by omega
  have hne : ¬ code ≠ code := by simp
  simp only [verifyOtpUser, hcode, hexp, if_neg h1, if_neg hc, if_neg hlive,
    if_neg hne]
  refine ⟨by simp, by simp, by simp, by simp, ?_⟩
  intro now2
  simp [verifyOtpUser, MAX_OTP_ATTEMPTS]

/-- Witness for C5 at a concrete account. -/
theorem verifyOtp_success_clears_then_noActiveCode_witness :
    (verifyOtpUser sampleAccount "123456" 500).1 =
      VerifyResult.success (mkToken sampleAccount) ∧
    (verifyOtpUser sampleAccount "123456" 500).2.otpCode = none ∧
    (verifyOtpUser sampleAccount "123456" 500).2.otpExpiresAt = none ∧
    (verifyOtpUser sampleAccount "123456" 500).2.otpAttempts = 0 ∧
    ∀ now2, (verifyOtpUser (verifyOtpUser sampleAccount "123456" 500).2
      "123456" now2).1 = VerifyResult.noActiveCode :=
  verifyOtp_success_clears_then_noActiveCode sampleAccount "123456" 1000 500
    (by decide) rfl (by decide) rfl (by decide)

/-- Claim C6: with an active code and otpAttempts below the maximum, a
verify-otp call strictly after otpExpiresAt with the correct code answers
Expired, not success, and clears otpCode and otpExpiresAt. -/
theorem verifyOtp_expired_clears (user : Account) (s : String) (e now : Nat)
    (hatt : user.otpAttempts < MAX_OTP_ATTEMPTS) (hcode : user.otpCode = some s)
    (hs : s ≠ "") (hexp : user.otpExpiresAt = some e) (hlate : e < now) :
    (verifyOtpUser user s now).1 = VerifyResult.expired ∧
    (verifyOtpUser user s now).2.otpCode = none ∧
    (verifyOtpUser user s now).2.otpExpiresAt = none := by
  have h1 : ¬ MAX_OTP_ATTEMPTS ≤ user.otpAttempts := by omega
  simp only [verifyOtpUser, hcode, hexp, if_neg h1, if_neg hs, if_pos hlate]
  simp

/-- Witness for C6: the correct code submitted at otpExpiresAt + 1ms. -/
theorem verifyOtp_expired_clears_witness :
    (verifyOtpUser sampleAccount "123456" 1001).1 = VerifyResult.expired ∧
    (verifyOtpUser sampleAccount "123456" 1001).2.otpCode = none ∧
    (verifyOtpUser sampleAccount "123456" 1001).2.otpExpiresAt = none :=
  verifyOtp_expired_clears sampleAccount "123456" 1000 1001
    (by decide) rfl (by decide) rfl (by decide)

/-- Claim C10: on the Mismatch path, the persisted account keeps its prior
otpCode, otpExpiresAt, password hash, role, login identifier and id; only
otpAttempts changes. -/
theorem verifyOtp_mismatch_frame (user : Account) (s code : String)
    (e now : Nat)
    (hatt : user.otpAttempts < MAX_OTP_ATTEMPTS) (hcode : user.otpCode = some s)
    (hs : s ≠ "") (hexp : user.otpExpiresAt = some e) (hlive : ¬ e < now)
    (hmm : code ≠ s) :
    (verifyOtpUser user code now).1 = VerifyResult.mismatch ∧
    (verifyOtpUser user code now).2.otpCode = user.otpCode ∧
    (verifyOtpUser user code now).2.otpExpiresAt = user.otpExpiresAt ∧
    (verifyOtpUser user code now).2.password = user.password ∧
    (verifyOtpUser user code now).2.role = user.role ∧
    (verifyOtpUser user code now).2.username = user.username ∧
    (verifyOtpUser user code now).2.id = user.id := by
  have h1 : ¬ MAX_OTP_ATTEMPTS ≤ user.otpAttempts := by omega
  simp only [verifyOtpUser, hcode, hexp, if_neg h1, if_neg hs, if_neg hlive,
    if_pos (Ne.symm hmm)]
  simp

/-- Witness for C10 at a concrete account and wrong code. -/
theorem verifyOtp_mismatch_frame_witness :
    (verifyOtpUser sampleAccount "654321" 500).1 = VerifyResult.mismatch ∧
    (verifyOtpUser sampleAccount "654321" 500).2.otpCode = sampleAccount.otpCode ∧
    (verifyOtpUser sampleAccount "654321" 500).2.otpExpiresAt =
      sampleAccount.otpExpiresAt ∧
    (verifyOtpUser sampleAccount "654321" 500).2.password = sampleAccount.password ∧
    (verifyOtpUser sampleAccount "654321" 500).2.role = sampleAccount.role ∧
    (verifyOtpUser sampleAccount "654321" 500).2.username = sampleAccount.username ∧
    (verifyOtpUser sampleAccount "654321" 500).2.id = sampleAccount.id :=
  verifyOtp_mismatch_frame sampleAccount "123456" "654321" 1000 500
    (by decide) rfl (by decide) rfl (by decide) (by decide)

/-- Claim C4: a /login call that passes the password check persists a fresh
OTP state against the account: otpCode is the 6-character decimal string of
a number between 100000 and 999999 inclusive, otpExpiresAt is the call time
plus OTP_EXPIRY_MINUTES (5) minutes, and otpAttempts is 0, with the other
account fields kept. -/
theorem login_success_persists_fresh_otp (compareHash : String → String → Bool)
    (user : Account) (password : String) (rand now : Nat) (mailOk : Bool)
    (hpw : compareHash password user.password = true) (hr : rand < 900000) :
    (login compareHash (some user) password rand now mailOk).2 =
      some { user with
        otpCode := some (generateOtp rand),
        otpExpiresAt := some (now + OTP_EXPIRY_MINUTES * 60 * 1000),
        otpAttempts := 0 } ∧
    generateOtp rand = Nat.repr (100000 + rand) ∧
    100000 ≤ 100000 + rand ∧ 100000 + rand ≤ 999999 ∧
    (generateOtp rand).length = 6 := by
  refine ⟨?_, rfl, by omega, by omega, ?_⟩
  · simp only [login, hpw, if_true]
    cases mailOk <;> rfl
  · exact repr_length_six (100000 + rand) (by omega) (by omega)

/-- Witness for C4 at a concrete account, password and random draw. -/
theorem login_success_persists_fresh_otp_witness :
    (fun p h => p == h) "hash" sampleAccount.password = true ∧
    (7 : Nat) < 900000 ∧
    ((login (fun p h => p == h) (some sampleAccount) "hash" 7 100 true).2 =
      some { sampleAccount with
        otpCode := some (generateOtp 7),
        otpExpiresAt := some (100 + OTP_EXPIRY_MINUTES * 60 * 1000),
        otpAttempts := 0 } ∧
    generateOtp 7 = Nat.repr (100000 + 7) ∧
    100000 ≤ 100000 + 7 ∧ 100000 + 7 ≤ 999999 ∧
    (generateOtp 7).length = 6) :=
  ⟨by decide, by decide,
   login_success_persists_fresh_otp (fun p h => p == h) sampleAccount "hash" 7 100
     true (by decide) (by decide)⟩

/-- Claim C7: for every found account, whatever the current OTP state —
including a locked-out one with otpAttempts at or above the maximum —
resend-otp persists a fresh code, a fresh 5-minute expiry and
otpAttempts = 0; and after two resend calls in a row the stored code is the
fresh code of the second call with otpAttempts still 0. -/
theorem resendOtp_unconditionally_resets :
    (∀ (user : Account) (rand now : Nat) (mailOk : Bool),
      (resendOtp (some user) rand now mailOk).2 =
        some { user with
          otpCode := some (generateOtp rand),
          otpExpiresAt := some (now + OTP_EXPIRY_MINUTES * 60 * 1000),
          otpAttempts := 0 }) ∧
    (∀ (user : Account) (r1 r2 now1 now2 : Nat) (m1 m2 : Bool),
      ∃ u1, (resendOtp (some user) r1 now1 m1).2 = some u1 ∧
        (resendOtp (some u1) r2 now2 m2).2 =
          some { u1 with
            otpCode := some (generateOtp r2),
            otpExpiresAt := some (now2 + OTP_EXPIRY_MINUTES * 60 * 1000),
            otpAttempts := 0 }) := by
  constructor
  · intro user rand now mailOk
    cases mailOk <;> rfl
  · intro user r1 r2 now1 now2 m1 m2
    refine ⟨{ user with
        otpCode := some (generateOtp r1),
        otpExpiresAt := some (now1 + OTP_EXPIRY_MINUTES * 60 * 1000),
        otpAttempts := 0 }, ?_, ?_⟩
    · cases m1 <;> rfl
    · cases m2 <;> rfl

/-- Counterexample to C8 as stated: the part_006 /login handler awaits
transporter.sendMail, so at this concrete account and correct password the
response with a failing mail send (the 500 of the catch block) differs from the
success response, even though the persisted OTP state is identical in the
two runs. -/
theorem login_mail_failure_counterexample :
    (fun p h => p == h) "pw" ({ sampleAccount with password := "pw" } : Account).password
      = true ∧
    (login (fun p h => p == h) (some { sampleAccount with password := "pw" })
        "pw" 0 0 false).1 = LoginResult.serverError ∧
    (login (fun p h => p == h) (some { sampleAccount with password := "pw" })
        "pw" 0 0 false).1 ≠
      (login (fun p h => p == h) (some { sampleAccount with password := "pw" })
        "pw" 0 0 true).1 ∧
    (login (fun p h => p == h) (some { sampleAccount with password := "pw" })
        "pw" 0 0 false).2 =
      (login (fun p h => p == h) (some { sampleAccount with password := "pw" })
        "pw" 0 0 true).2 := by
  refine ⟨rfl, rfl, ?_, rfl⟩
  decide

/-- Claim C8 amended: after a successful password check the OTP state is
persisted identically whether or not the mail send fails — the write is
never rolled back — and in the authLogin2FARoutes.js variant, whose
sendMail runs with a callback, the response is also unchanged; but in the
part_006 handler, which awaits sendMail, a mail failure surfaces as the
500 server error of the catch block instead of the success response. -/
theorem login_mail_failure_amended (compareHash : String → String → Bool)
    (user : Account) (password : String) (rand now : Nat)
    (hpw : compareHash password user.password = true) :
    ((login compareHash (some user) password rand now false).2 =
      (login compareHash (some user) password rand now true).2 ∧
     ∃ u1, (login compareHash (some user) password rand now false).2 = some u1 ∧
       u1.otpCode = some (generateOtp rand) ∧
       u1.otpExpiresAt = some (now + OTP_EXPIRY_MINUTES * 60 * 1000)) ∧
    (∀ mailOk, (login2FACallbackMail compareHash (some user) password rand now
      mailOk).1 = LoginResult.otpSent user.username) ∧
    (login compareHash (some user) password rand now false).1 =
      LoginResult.serverError := by
  refine ⟨⟨?_, ?_⟩, ?_, ?_⟩
  · simp [login, hpw]
  · refine ⟨{ user with
        otpCode := some (generateOtp rand),
        otpExpiresAt := some (now + OTP_EXPIRY_MINUTES * 60 * 1000),
        otpAttempts := 0 }, ?_, rfl, rfl⟩
    simp [login, hpw]
  · intro mailOk
    simp only [login2FACallbackMail, hpw, if_true]
  · simp [login, hpw]

/-- Witness for the amended C8 at a concrete account and password. -/
theorem login_mail_failure_amended_witness :
    (fun p h => p == h) "hash" sampleAccount.password = true ∧
    (((login (fun p h => p == h) (some sampleAccount) "hash" 3 50 false).2 =
      (login (fun p h => p == h) (some sampleAccount) "hash" 3 50 true).2 ∧
     ∃ u1, (login (fun p h => p == h) (some sampleAccount) "hash" 3 50 false).2 =
        some u1 ∧
       u1.otpCode = some (generateOtp 3) ∧
       u1.otpExpiresAt = some (50 + OTP_EXPIRY_MINUTES * 60 * 1000)) ∧
    (∀ mailOk, (login2FACallbackMail (fun p h => p == h) (some sampleAccount)
      "hash" 3 50 mailOk).1 = LoginResult.otpSent sampleAccount.username) ∧
    (login (fun p h => p == h) (some sampleAccount) "hash" 3 50 false).1 =
      LoginResult.serverError) :=
  ⟨by decide,
   login_mail_failure_amended (fun p h => p == h) sampleAccount "hash" 3 50
     (by decide)⟩

/-- Claim C9: a login for an identifier matching no account and a login
for a found account whose password fails the bcrypt comparison produce the
same result value — hence the same 400 status and the same generic
invalid-credentials message — so the response never distinguishes a missing
account from a wrong password. -/
theorem login_failure_indistinguishable (compareHash : String → String → Bool)
    (user : Account) (pw1 pw2 : String) (r1 r2 now1 now2 : Nat) (m1 m2 : Bool)
    (hpw : compareHash pw2 user.password = false) :
    (login compareHash none pw1 r1 now1 m1).1 =
      (login compareHash (some user) pw2 r2 now2 m2).1 ∧
    loginHttp (login compareHash (some user) pw2 r2 now2 m2).1 =
      (400, "Invalid credentials") := by
  simp [login, hpw, loginHttp]

/-- Witness for C9 at a concrete account and wrong password. -/
theorem login_failure_indistinguishable_witness :
    (fun p h => p == h) "wrong" sampleAccount.password = false ∧
    ((login (fun p h => p == h) none "any" 1 2 true).1 =
      (login (fun p h => p == h) (some sampleAccount) "wrong" 3 4 false).1 ∧
    loginHttp (login (fun p h => p == h) (some sampleAccount) "wrong" 3 4 false).1 =
      (400, "Invalid credentials")) :=
  ⟨by decide,
   login_failure_indistinguishable (fun p h => p == h) sampleAccount "any" "wrong"
     1 3 2 4 true false (by decide)⟩
